import Mathlib

/-!
# KrishiOne front-end: verification of the computable contracts

Shallow embedding of the computational parts of the KrishiOne single-file
React front-end (`App.jsx`) and its API client (`api.js`):

* the EMI loan calculator (`EMICalc`),
* the yield estimator (`YieldCalc`),
* the Digital Mandi listing store (`DigitalMandiPage` + `useLocalStorage`),
* the trend heuristic (`DecisionMeter`),
* the disease-detection wrapper (`detectDiseaseWithBackend` over `detectDisease`).

JavaScript numbers are modelled as rationals (`ℚ`); where the code can
produce `NaN` (a `+string` coercion, an `undefined` table lookup flowing
into arithmetic) we use `JSNum`, a rational extended with a `nan` point
that is absorbing for multiplication. `Math.round x` is `round x`
(`⌊x + 1/2⌋`, half toward `+∞`, exactly JavaScript's rule).
-/

set_option autoImplicit false

namespace KrishiOne

/-- A JavaScript number that may be `NaN`. -/
inductive JSNum where
  | nan : JSNum
  | num : ℚ → JSNum
  deriving DecidableEq, Repr

/-- JavaScript multiplication on possibly-`NaN` numbers: `NaN` (and
`undefined` coerced into arithmetic) is absorbing. -/
def JSNum.mul : JSNum → JSNum → JSNum
  | .num a, .num b => .num (a * b)
  | _, _ => .nan

/-! ## EMI calculator (`EMICalc`, App.jsx lines 657–688)

```js
const m = r / 12 / 100;
const emi = m === 0 ? P / n : P * m * Math.pow(1 + m, n) / (Math.pow(1 + m, n) - 1);
const total = emi * n;
const interest = total - P;
```
The three displayed figures are `Math.round(emi)`, `Math.round(interest)`,
`Math.round(total)`. -/

/-- The monthly rate `m = r / 12 / 100` the code derives from the annual
percentage rate. -/
def emiMonthlyRate (r : ℚ) : ℚ := r / 12 / 100

/-- The unrounded installment computed by `EMICalc`. -/
def emi (P r : ℚ) (n : ℕ) : ℚ :=
  let m := emiMonthlyRate r
  if m = 0 then P / n else P * m * (1 + m) ^ n / ((1 + m) ^ n - 1)

/-- The figure `total = emi * n` in `EMICalc` (from the unrounded installment). -/
def emiTotal (P r : ℚ) (n : ℕ) : ℚ := emi P r n * n

/-- The figure `interest = total - P` in `EMICalc`. -/
def emiInterest (P r : ℚ) (n : ℕ) : ℚ := emiTotal P r n - P

/-- The EMI figure as displayed: `Math.round(emi)`. -/
def emiDisplayed (P r : ℚ) (n : ℕ) : ℤ := round (emi P r n)

/-- Reference definition following the spec's words (section 4.1):
`m = r / 1200`; if `m = 0` the installment is `P / n`, otherwise
`P·m·(1+m)^n / ((1+m)^n − 1)`. -/
def emiSpec (P r : ℚ) (n : ℕ) : ℚ :=
  let m := r / 1200
  if m = 0 then P / n else P * m * (1 + m) ^ n / ((1 + m) ^ n - 1)

theorem emiMonthlyRate_eq (r : ℚ) : emiMonthlyRate r = r / 1200 := by
  unfold emiMonthlyRate
  rw [div_div]
  norm_num

theorem emi_eq_emiSpec (P r : ℚ) (n : ℕ) : emi P r n = emiSpec P r n := by
  unfold emi emiSpec
  rw [emiMonthlyRate_eq]

/-- Key amortization inequality: for a positive monthly rate `x`,
`(1+x)^n - 1 < n·x·(1+x)^n` for every term `n ≥ 1`. -/
theorem geom_growth_lt (x : ℚ) (hx : 0 < x) :
    ∀ n : ℕ, 1 ≤ n → (1 + x) ^ n - 1 < (n : ℚ) * x * (1 + x) ^ n := by
  intro n hn
  induction n with
  | zero => exact absurd hn (by omega)
  | succ k ih =>
    by_cases hk : k = 0
    · subst hk
      push_cast
      nlinarith
    · have IH := ih (Nat.one_le_iff_ne_zero.mpr hk)
      have hA : (1 : ℚ) ≤ (1 + x) ^ k := one_le_pow₀ (by linarith)
      have h1 : (1 + x) * ((1 + x) ^ k - 1) < (1 + x) * ((k : ℚ) * x * (1 + x) ^ k) :=
        mul_lt_mul_of_pos_left IH (by linarith)
      have h2 : x * 1 ≤ x * ((1 + x) ^ k * (1 + x)) := by
        have : (1 : ℚ) ≤ (1 + x) ^ k * (1 + x) := by nlinarith
        exact mul_le_mul_of_nonneg_left this (le_of_lt hx)
      rw [pow_succ]
      push_cast
      nlinarith [h1, h2]

/-- C5: with a zero annual rate the installment is exactly `P/n`;
with any positive rate it is strictly larger than `P/n`. -/
theorem emi_vs_flat_installment (P : ℚ) (n : ℕ) (hP : 0 < P) (hn : 1 ≤ n) :
    emi P 0 n = P / n ∧ ∀ r : ℚ, 0 < r → P / n < emi P r n := by
  constructor
  · simp [emi, emiMonthlyRate]
  · intro r hr
    have hm : 0 < emiMonthlyRate r := by
      unfold emiMonthlyRate
      positivity
    set m := emiMonthlyRate r with hmdef
    have hn0 : (0 : ℚ) < (n : ℚ) := by
      have : 0 < n := hn
      exact_mod_cast this
    have hpow : 1 < (1 + m) ^ n := by
      have h1m : 1 < 1 + m := by linarith
      exact one_lt_pow₀ h1m (by omega)
    have hD : 0 < (1 + m) ^ n - 1 := by linarith
    have hkey := geom_growth_lt m hm n hn
    unfold emi
    rw [if_neg (by rw [← hmdef]; exact ne_of_gt hm)]
    rw [div_lt_div_iff₀ hn0 hD]
    nlinarith [mul_lt_mul_of_pos_left hkey hP]

/-- C5 witness at `P = 100000`, `n = 24`, `r = 10`. -/
theorem emi_vs_flat_installment_witness :
    emi 100000 0 24 = 100000 / 24 ∧ (100000 : ℚ) / 24 < emi 100000 10 24 :=
  ⟨(emi_vs_flat_installment 100000 24 (by norm_num) (by norm_num)).1,
   (emi_vs_flat_installment 100000 24 (by norm_num) (by norm_num)).2 10 (by norm_num)⟩

/-- C1: for every valid input the code's outputs agree with the spec's
reference definition: the displayed installment is the reference formula
rounded to the nearest unit, `total = installment × n` and
`interest = total − P` (both computed from the unrounded installment). -/
theorem emiCalc_matches_spec (P r : ℚ) (n : ℕ)
    (_hP : 0 < P) (_hr : 0 ≤ r) (_hn : 1 ≤ n) :
    emiDisplayed P r n = round (emiSpec P r n)
    ∧ emiTotal P r n = emiSpec P r n * n
    ∧ emiInterest P r n = emiSpec P r n * n - P := by
  unfold emiDisplayed emiTotal emiInterest
  rw [emi_eq_emiSpec]
  exact ⟨rfl, rfl, by unfold emiTotal; rw [emi_eq_emiSpec]⟩

/-- C1 witness at `P = 100000`, `r = 10`, `n = 24`. -/
theorem emiCalc_matches_spec_witness :
    emiDisplayed 100000 10 24 = round (emiSpec 100000 10 24)
    ∧ emiTotal 100000 10 24 = emiSpec 100000 10 24 * 24
    ∧ emiInterest 100000 10 24 = emiSpec 100000 10 24 * 24 - 100000 :=
  emiCalc_matches_spec 100000 10 24 (by norm_num) (by norm_num) (by norm_num)

/-! ## Digital Mandi listing store (`DigitalMandiPage`, App.jsx lines 463–527)

```js
const addItem = () => {
  if (!form.crop || !form.location || !form.contact) return;
  const next = [...items, { id: genId(), ts: Date.now(), ...form }];
  setItems(next);
  setForm(initial);
};
const remove = (id) => setItems(items.filter((i) => i.id !== id));
```
The form fields are `crop`, `qty`, `price`, `location`, `contact`; `qty`
and `price` come from `+e.target.value` and so can be any number including
`NaN`. `genId()` and `Date.now()` are nondeterministic; we pass the
generated id and timestamp as oracle parameters. -/

/-- The five user-entered listing fields (the `form` state). -/
structure ListingForm where
  crop : String
  qty : JSNum
  price : JSNum
  location : String
  contact : String
  deriving DecidableEq, Repr

/-- A stored listing: `{ id: genId(), ts: Date.now(), ...form }`. -/
structure Listing extends ListingForm where
  id : String
  ts : ℕ
  deriving DecidableEq, Repr

/-- Operation `addItem`: the empty-string check `!form.crop || !form.location ||
!form.contact` silently returns; otherwise the new listing is appended.
`newId` and `now` stand for `genId()` and `Date.now()`. -/
def addItem (items : List Listing) (form : ListingForm) (newId : String) (now : ℕ) :
    List Listing :=
  if form.crop = "" ∨ form.location = "" ∨ form.contact = "" then items
  else items ++ [{ toListingForm := form, id := newId, ts := now }]

/-- Operation `remove(id)`: `items.filter((i) => i.id !== id)`. -/
def removeItem (items : List Listing) (targetId : String) : List Listing :=
  items.filter (fun i => i.id ≠ targetId)

/-- Operation `list()`: browsing renders the `items` collection as is. -/
def listItems (items : List Listing) : List Listing := items

/-! ## Persistence (`useLocalStorage`, App.jsx lines 749–764)

```js
const raw = localStorage.getItem(key);
return raw ? JSON.parse(raw) : initialValue;   // inside try
// catch (e) { return initialValue; }
```
`localStorage.getItem` is modelled as an `Option String` (`none` = missing
record); `JSON.parse` as an abstract parser `String → Option α` (`none` =
the parse throws, caught by the surrounding `try`). `raw ? … : …` is
JavaScript truthiness: `null` and `""` both select `initialValue`. -/

/-- The initial-state computation of `useLocalStorage`. -/
def loadStored {α : Type} (parse : String → Option α) (initialValue : α)
    (raw : Option String) : α :=
  match raw with
  | none => initialValue
  | some s => if s = "" then initialValue else (parse s).getD initialValue

/-! ## Trend heuristic (`DecisionMeter`, App.jsx lines 443–461)

```js
if (series.length < 4) return 0;
const last = series.slice(-4);
return Math.sign(last[3] - last[0]);
// text: trend > 0 ? "Hold (Uptrend)" : trend < 0 ? "Sell Soon (Downtrend)" : "Neutral"
```
-/

/-- JavaScript `Math.sign` on a rational. -/
def jsSign (d : ℚ) : ℤ :=
  if 0 < d then 1 else if d < 0 then -1 else 0

/-- The `trend` value of `DecisionMeter`; `series.slice(-4)` is
`drop (length - 4)` when the length is at least 4. -/
def decisionTrend (series : List ℚ) : ℤ :=
  if series.length < 4 then 0
  else
    let lastFour := series.drop (series.length - 4)
    jsSign (lastFour.getD 3 0 - lastFour.getD 0 0)

/-- The advisory text rendered by `DecisionMeter`. -/
def decisionText (series : List ℚ) : String :=
  let trend := decisionTrend series
  if 0 < trend then "Hold (Uptrend)"
  else if trend < 0 then "Sell Soon (Downtrend)"
  else "Neutral"

/-! ## Disease detection (`api.js` and `detectDiseaseWithBackend`, App.jsx 61–68)

```js
// api.js
const res = await fetch(`.../crop-disease`, { method: 'POST', body: formData });
if (!res.ok) throw new Error('Detection failed');
return res.json();
// App.jsx
try { const r = await detectDisease(file);
      return { name: r.disease, remedy: r.remedy, confidence: r.confidence }; }
catch (e) { return { name: "Unavailable", remedy: "Backend not reachable.", confidence: 0 }; }
```
The network is modelled by the outcome of the `fetch`: either a network
error (the promise rejects) or a response carrying its `ok` flag (2xx) and
the decoded JSON body. -/

/-- The backend's JSON body for `/api/crop-disease`. -/
structure BackendResponse where
  disease : String
  remedy : String
  confidence : ℚ
  deriving DecidableEq, Repr

/-- What the UI stores in `result`. -/
structure DiseaseResult where
  name : String
  remedy : String
  confidence : ℚ
  deriving DecidableEq, Repr

/-- Outcome of the `fetch` call. -/
inductive FetchOutcome where
  | networkError : FetchOutcome
  | response : Bool → BackendResponse → FetchOutcome
  deriving DecidableEq, Repr

/-- Function `detectDisease` from `api.js`: rejects on network error, throws
`'Detection failed'` on a non-2xx response, otherwise resolves to the body. -/
def detectDisease (f : FetchOutcome) : Except String BackendResponse :=
  match f with
  | .networkError => .error "NetworkError"
  | .response ok body => if ok then .ok body else .error "Detection failed"

/-- The fixed fallback value of `detectDiseaseWithBackend`. -/
def fallbackResult : DiseaseResult :=
  { name := "Unavailable", remedy := "Backend not reachable.", confidence := 0 }

/-- Wrapper `detectDiseaseWithBackend`: the `try`/`catch` around the call. Its result type
is a plain `DiseaseResult` — every fault is absorbed, none propagates. -/
def detectDiseaseWithBackend (f : FetchOutcome) : DiseaseResult :=
  match detectDisease f with
  | .ok r => { name := r.disease, remedy := r.remedy, confidence := r.confidence }
  | .error _ => fallbackResult

/-! ## Yield calculator (`YieldCalc`, App.jsx lines 690–725)

```js
const baseYield = { Wheat: 18, Rice: 22, Maize: 20, Tomato: 80, Onion: 100 };
const yieldQtl = baseYield[crop] * area * factor;
const revenue = yieldQtl * 2000;
```
`baseYield[crop]` is `undefined` for a key outside the table; `undefined`
entering multiplication yields `NaN`, so the lookup is modelled as `.nan`
for unknown keys (it is only ever used inside the product). -/

/-- The fixed base-yield table (qtl/acre); unknown keys give `undefined`,
here `.nan` since the value flows straight into arithmetic. -/
def baseYield (crop : String) : JSNum :=
  if crop = "Wheat" then .num 18
  else if crop = "Rice" then .num 22
  else if crop = "Maize" then .num 20
  else if crop = "Tomato" then .num 80
  else if crop = "Onion" then .num 100
  else .nan

/-- The crop keys of the `baseYield` table (the options of the selector). -/
def supportedCrops : List String := ["Wheat", "Rice", "Maize", "Tomato", "Onion"]

/-- The product `yieldQtl = baseYield[crop] * area * factor`. -/
def yieldQtl (crop : String) (area factor : JSNum) : JSNum :=
  ((baseYield crop).mul area).mul factor

/-- The product `revenue = yieldQtl * 2000`. -/
def yieldRevenue (crop : String) (area factor : JSNum) : JSNum :=
  (yieldQtl crop area factor).mul (.num 2000)

/-- C2: starting from the empty store, adding a listing with non-empty
crop, location and contact fields makes `list()` a singleton whose entry
equals the submitted form except for the generated id and timestamp, and
removing that entry's id empties the store again. -/
theorem listing_round_trip (form : ListingForm) (newId : String) (now : ℕ)
    (h1 : form.crop ≠ "") (h2 : form.location ≠ "") (h3 : form.contact ≠ "") :
    ∃ entry : Listing,
      listItems (addItem [] form newId now) = [entry]
      ∧ entry.toListingForm = form
      ∧ listItems (removeItem (addItem [] form newId now) entry.id) = [] := by
  refine ⟨{ toListingForm := form, id := newId, ts := now }, ?_, rfl, ?_⟩
  · unfold listItems addItem
    rw [if_neg (by simp [h1, h2, h3])]
    simp
  · unfold listItems removeItem addItem
    rw [if_neg (by simp [h1, h2, h3])]
    simp

/-- C2 witness with the form's initial values. -/
theorem listing_round_trip_witness :
    ∃ entry : Listing,
      listItems (addItem []
          { crop := "Tomato", qty := .num 10, price := .num 1500,
            location := "Bhubaneswar", contact := "9999999999" } "id-1" 0) = [entry]
      ∧ entry.toListingForm
          = { crop := "Tomato", qty := .num 10, price := .num 1500,
              location := "Bhubaneswar", contact := "9999999999" }
      ∧ listItems (removeItem (addItem []
          { crop := "Tomato", qty := .num 10, price := .num 1500,
            location := "Bhubaneswar", contact := "9999999999" } "id-1" 0) entry.id) = [] :=
  listing_round_trip _ "id-1" 0 (by decide) (by decide) (by decide)

/-- C8: an add with an empty crop, location or contact field is a silent
no-op, leaving the collection unchanged; when all three are non-empty the
listing is appended at the end, carrying the generated id and timestamp. -/
theorem addItem_validation (items : List Listing) (form : ListingForm)
    (newId : String) (now : ℕ) :
    ((form.crop = "" ∨ form.location = "" ∨ form.contact = "") →
        addItem items form newId now = items)
    ∧ (form.crop ≠ "" → form.location ≠ "" → form.contact ≠ "" →
        addItem items form newId now
          = items ++ [{ toListingForm := form, id := newId, ts := now }]) := by
  constructor
  · intro h
    unfold addItem
    rw [if_pos h]
  · intro h1 h2 h3
    unfold addItem
    rw [if_neg (by simp [h1, h2, h3])]

/-- C8 witness: an empty crop field is dropped silently; a complete form
is appended. -/
theorem addItem_validation_witness :
    addItem []
        { crop := "", qty := .num 10, price := .num 1500,
          location := "Bhubaneswar", contact := "9999999999" } "id-1" 5 = []
    ∧ addItem []
        { crop := "Rice", qty := .num 10, price := .num 1500,
          location := "Bhubaneswar", contact := "9999999999" } "id-1" 5
      = [] ++
        [{ crop := "Rice", qty := .num 10, price := .num 1500,
           location := "Bhubaneswar", contact := "9999999999", id := "id-1", ts := 5 }] :=
  ⟨(addItem_validation [] _ "id-1" 5).1 (Or.inl rfl),
   (addItem_validation [] _ "id-1" 5).2 (by decide) (by decide) (by decide)⟩

/-- C10 (implicit): the guard of `addItem` looks only at crop, location
and contact; any quantity and price — zero, negative or `NaN` — are
accepted and stored unchanged in the appended listing. -/
theorem addItem_ignores_qty_price (items : List Listing)
    (crop location contact newId : String) (now : ℕ)
    (h1 : crop ≠ "") (h2 : location ≠ "") (h3 : contact ≠ "") :
    ∀ qty price : JSNum,
      addItem items
          { crop := crop, qty := qty, price := price,
            location := location, contact := contact } newId now
        = items ++
          [{ crop := crop, qty := qty, price := price,
             location := location, contact := contact, id := newId, ts := now }] := by
  intro qty price
  unfold addItem
  rw [if_neg (by simp [h1, h2, h3])]

/-- C10 witness: a `NaN` quantity and a negative price are stored as is. -/
theorem addItem_ignores_qty_price_witness :
    addItem []
        { crop := "Onion", qty := .nan, price := .num (-5),
          location := "Delhi", contact := "1234" } "id-2" 7
      = [] ++
        [{ crop := "Onion", qty := .nan, price := .num (-5),
           location := "Delhi", contact := "1234", id := "id-2", ts := 7 }] :=
  addItem_ignores_qty_price [] "Onion" "Delhi" "1234" "id-2" 7
    (by decide) (by decide) (by decide) .nan (.num (-5))

/-- C9: loading the persisted collection yields the default empty
collection when the record is missing or when its text fails to parse;
the operation is a total function and so never throws. -/
theorem loadStored_fails_open (parse : String → Option (List Listing))
    (raw : Option String) :
    (raw = none → loadStored parse ([] : List Listing) raw = [])
    ∧ (∀ s, raw = some s → parse s = none →
        loadStored parse ([] : List Listing) raw = []) := by
  constructor
  · rintro rfl
    rfl
  · rintro s rfl hp
    show (if s = "" then [] else (parse s).getD []) = []
    by_cases h : s = "" <;> simp [h, hp]

/-- C9 witness: a missing record and an unparsable record both load as the
empty collection. -/
theorem loadStored_fails_open_witness :
    loadStored (fun _ => (none : Option (List Listing))) [] none = []
    ∧ loadStored (fun _ => (none : Option (List Listing))) [] (some "corrupt") = [] :=
  ⟨(loadStored_fails_open (fun _ => none) none).1 rfl,
   (loadStored_fails_open (fun _ => none) (some "corrupt")).2 "corrupt" rfl rfl⟩

/-- C4: the wrapper resolves to the fixed fallback on a network error and
on a non-2xx response, and to the backend's triple on a 2xx response; its
result type is plain (no error channel), so no fault propagates. -/
theorem detectDiseaseWithBackend_spec (f : FetchOutcome) :
    (f = .networkError → detectDiseaseWithBackend f = fallbackResult)
    ∧ (∀ body, f = .response false body → detectDiseaseWithBackend f = fallbackResult)
    ∧ (∀ body, f = .response true body →
        detectDiseaseWithBackend f
          = { name := body.disease, remedy := body.remedy,
              confidence := body.confidence }) := by
  refine ⟨?_, ?_, ?_⟩
  · rintro rfl
    rfl
  · rintro body rfl
    rfl
  · rintro body rfl
    rfl

/-- C4 witness: concrete fetch outcomes for each of the three cases. -/
theorem detectDiseaseWithBackend_spec_witness :
    detectDiseaseWithBackend .networkError = fallbackResult
    ∧ detectDiseaseWithBackend (.response false ⟨"Blight", "Spray", 9/10⟩) = fallbackResult
    ∧ detectDiseaseWithBackend (.response true ⟨"Blight", "Spray", 9/10⟩)
        = { name := "Blight", remedy := "Spray", confidence := 9/10 } :=
  ⟨(detectDiseaseWithBackend_spec .networkError).1 rfl,
   (detectDiseaseWithBackend_spec (.response false ⟨"Blight", "Spray", 9/10⟩)).2.1 _ rfl,
   (detectDiseaseWithBackend_spec (.response true ⟨"Blight", "Spray", 9/10⟩)).2.2 _ rfl⟩

/-- C6: for a crop in the base-yield table, a positive area and a practice
factor from the selector, the yield is `base × area × factor` and the
revenue is that times the fixed 2000 ₹/qtl; with factor 1 the yield is
`base × area`. -/
theorem yieldCalc_formula (crop : String) (b area factor : ℚ)
    (hb : baseYield crop = .num b) (_ha : 0 < area)
    (_hf : factor = 9/10 ∨ factor = 1 ∨ factor = 11/10) :
    yieldQtl crop (.num area) (.num factor) = .num (b * area * factor)
    ∧ yieldRevenue crop (.num area) (.num factor) = .num (b * area * factor * 2000)
    ∧ yieldQtl crop (.num area) (.num 1) = .num (b * area) := by
  unfold yieldRevenue yieldQtl
  rw [hb]
  refine ⟨rfl, rfl, ?_⟩
  show JSNum.num (b * area * 1) = JSNum.num (b * area)
  rw [mul_one]

/-- C6 witness: Wheat over 2 acres at standard practice. -/
theorem yieldCalc_formula_witness :
    yieldQtl "Wheat" (.num 2) (.num 1) = .num (18 * 2 * 1)
    ∧ yieldRevenue "Wheat" (.num 2) (.num 1) = .num (18 * 2 * 1 * 2000)
    ∧ yieldQtl "Wheat" (.num 2) (.num 1) = .num (18 * 2) :=
  yieldCalc_formula "Wheat" 18 2 1 (by decide) (by norm_num) (Or.inr (Or.inl rfl))

/-- C7 counterexample: for the unknown crop key `"Potato"` the yield
calculation does not fail with an error — it completes and produces the
number `NaN`, which the component renders. -/
theorem yieldCalc_unknown_counterexample :
    yieldQtl "Potato" (.num 1) (.num 1) = .nan
    ∧ yieldRevenue "Potato" (.num 1) (.num 1) = .nan := by
  constructor <;> rfl

/-- C7 (amended): for every crop key outside the base-yield table the
calculation completes normally and returns `NaN` for both outputs (the
`undefined` lookup propagates through the arithmetic); no error is
raised, and the selector offers only table keys. -/
theorem yieldCalc_unknown_nan (crop : String) (area factor : JSNum)
    (h : crop ∉ supportedCrops) :
    yieldQtl crop area factor = .nan ∧ yieldRevenue crop area factor = .nan := by
  have hb : baseYield crop = .nan := by
    simp only [supportedCrops, List.mem_cons, List.not_mem_nil, or_false, not_or] at h
    obtain ⟨n1, n2, n3, n4, n5⟩ := h
    simp [baseYield, n1, n2, n3, n4, n5]
  unfold yieldRevenue yieldQtl
  rw [hb]
  cases area <;> cases factor <;> exact ⟨rfl, rfl⟩

/-- C7 witness for the amended statement, at another unknown key. -/
theorem yieldCalc_unknown_nan_witness :
    yieldQtl "Mango" (.num 3) (.num (9/10)) = .nan
    ∧ yieldRevenue "Mango" (.num 3) (.num (9/10)) = .nan :=
  yieldCalc_unknown_nan "Mango" (.num 3) (.num (9/10)) (by decide)

/-- Indexing into `slice(-4)` is indexing into the original series. -/
theorem getD_drop_eq (l : List ℚ) (i j : ℕ) :
    (l.drop i).getD j 0 = l.getD (i + j) 0 := by
  simp [List.getD_eq_getElem?_getD, List.getElem?_drop]

/-- The trend value is always one of `1`, `0`, `-1`. -/
theorem decisionTrend_cases (series : List ℚ) :
    decisionTrend series = 1 ∨ decisionTrend series = 0 ∨ decisionTrend series = -1 := by
  unfold decisionTrend jsSign
  split
  · exact Or.inr (Or.inl rfl)
  · dsimp only
    split
    · exact Or.inl rfl
    · split
      · exact Or.inr (Or.inr rfl)
      · exact Or.inr (Or.inl rfl)

/-- C3 counterexample: the rendered labels are `"Hold (Uptrend)"` and
`"Sell Soon (Downtrend)"`, not the bare `"Hold"` and `"Sell Soon"` the
claim names. -/
theorem decisionMeter_label_counterexample :
    decisionText [(10 : ℚ), 10, 10, 20] ≠ "Hold"
    ∧ decisionText [(20 : ℚ), 10, 10, 10] ≠ "Sell Soon" := by
  constructor
  · norm_num [decisionText, decisionTrend, jsSign]
    decide
  · norm_num [decisionText, decisionTrend, jsSign]
    decide

/-- C3 (amended): with at least 4 samples the trend is the sign of the
last sample minus the sample 3 positions earlier, mapped to the labels
`"Hold (Uptrend)"` (+1), `"Neutral"` (0), `"Sell Soon (Downtrend)"` (-1);
fewer than 4 samples give `"Neutral"`. The three example series map to
`"Neutral"`, `"Hold (Uptrend)"` and `"Sell Soon (Downtrend)"`. -/
theorem decisionMeter_spec (series : List ℚ) :
    (series.length < 4 → decisionText series = "Neutral")
    ∧ (4 ≤ series.length →
        decisionTrend series
          = jsSign (series.getD (series.length - 1) 0
              - series.getD (series.length - 4) 0))
    ∧ decisionText series
        = (if decisionTrend series = 1 then "Hold (Uptrend)"
           else if decisionTrend series = -1 then "Sell Soon (Downtrend)"
           else "Neutral")
    ∧ decisionText [(10 : ℚ), 10, 10, 10] = "Neutral"
    ∧ decisionText [(10 : ℚ), 10, 10, 20] = "Hold (Uptrend)"
    ∧ decisionText [(20 : ℚ), 10, 10, 10] = "Sell Soon (Downtrend)" := by
  refine ⟨?_, ?_, ?_,
    by norm_num [decisionText, decisionTrend, jsSign],
    by norm_num [decisionText, decisionTrend, jsSign],
    by norm_num [decisionText, decisionTrend, jsSign]⟩
  · intro h
    simp [decisionText, decisionTrend, h]
  · intro h
    unfold decisionTrend
    rw [if_neg (by omega)]
    show jsSign ((series.drop (series.length - 4)).getD 3 0
        - (series.drop (series.length - 4)).getD 0 0) = _
    rw [getD_drop_eq, getD_drop_eq]
    have e1 : series.length - 4 + 3 = series.length - 1 := by omega
    have e2 : series.length - 4 + 0 = series.length - 4 := by omega
    rw [e1, e2]
  · unfold decisionText
    rcases decisionTrend_cases series with h | h | h <;> rw [h] <;> simp

/-- C3 witness: a 3-sample series falls back to `"Neutral"`, and a
4-sample series compares its last sample with its first. -/
theorem decisionMeter_spec_witness :
    decisionText [(1 : ℚ), 2, 3] = "Neutral"
    ∧ decisionTrend [(1 : ℚ), 2, 3, 4]
        = jsSign ([(1 : ℚ), 2, 3, 4].getD ([(1 : ℚ), 2, 3, 4].length - 1) 0
            - [(1 : ℚ), 2, 3, 4].getD ([(1 : ℚ), 2, 3, 4].length - 4) 0) :=
  ⟨(decisionMeter_spec [1, 2, 3]).1 (by decide),
   (decisionMeter_spec [1, 2, 3, 4]).2.1 (by decide)⟩

end KrishiOne
